import Mathlib

/-!
Shallow embedding of `src/project.cpp`, a student/university design-pattern
demo: a `Student` class hierarchy (prototype + decorator), a factory, a
builder and a singleton registry. Dynamic dispatch over the three concrete
classes (`BasicStudent`, `StudentDecorator`, `TutoringSupportDecorator`) is
modelled by an inductive type with one constructor per concrete class; each
virtual member function becomes a structurally recursive function that
matches the overriding definitions in the source.
-/

/-- The concrete `Student` objects constructible in the program:
`BasicStudent(categories, testToSkipLevels)`, `StudentDecorator(base)` and
`TutoringSupportDecorator(base)`. -/
inductive Student where
  | basic (categories : List String) (testToSkipLevels : Bool)
  | decorator (baseStudent : Student)
  | tutoring (baseStudent : Student)
deriving DecidableEq, Repr

/-- `clone()`: `BasicStudent::clone` copy-constructs a fresh `BasicStudent`
with the same attribute values; `StudentDecorator::clone` (inherited
unchanged by `TutoringSupportDecorator`) returns `baseStudent->clone()`. -/
def Student.clone : Student → Student
  | .basic categories testToSkipLevels => .basic categories testToSkipLevels
  | .decorator baseStudent => baseStudent.clone
  | .tutoring baseStudent => baseStudent.clone

/-- `canTakeCourse(course)`: `BasicStudent` returns `true` for every course;
`StudentDecorator` delegates to the wrapped object;
`TutoringSupportDecorator` overrides it to return `true` unconditionally. -/
def Student.canTakeCourse : Student → String → Bool
  | .basic _ _, _ => true
  | .decorator baseStudent, course => baseStudent.canTakeCourse course
  | .tutoring _, _ => true

/-- `hasTestToSkipLevels()`: `BasicStudent` returns the stored flag;
both decorators delegate to the wrapped object (`TutoringSupportDecorator`
inherits the `StudentDecorator` definition). -/
def Student.hasTestToSkipLevels : Student → Bool
  | .basic _ testToSkipLevels => testToSkipLevels
  | .decorator baseStudent => baseStudent.hasTestToSkipLevels
  | .tutoring baseStudent => baseStudent.hasTestToSkipLevels

/-- `getCategories()`: `BasicStudent` returns the stored list; both
decorators delegate to the wrapped object. -/
def Student.getCategories : Student → List String
  | .basic categories _ => categories
  | .decorator baseStudent => baseStudent.getCategories
  | .tutoring baseStudent => baseStudent.getCategories

/-- A `Student` is decorated iff its outermost layer is one of the two
decorator classes rather than a `BasicStudent`. -/
def Student.isDecorated : Student → Bool
  | .basic _ _ => false
  | .decorator _ => true
  | .tutoring _ => true

/-- The innermost object of a delegation chain: peel every decorator layer
down to the underlying `BasicStudent`. -/
def Student.innermost : Student → Student
  | .basic categories testToSkipLevels => .basic categories testToSkipLevels
  | .decorator baseStudent => baseStudent.innermost
  | .tutoring baseStudent => baseStudent.innermost

/-- `BasicStudentFactory::createStudent`: constructs a `BasicStudent` from
the given attributes verbatim. -/
def BasicStudentFactory.createStudent (categories : List String)
    (testToSkipLevels : Bool) : Student :=
  .basic categories testToSkipLevels

/-- `BasicStudentBuilder`: mutable accumulator with fields `categories`
and `testToSkipLevels`. Mutation of the C++ object is modelled by state
passing: each setter returns the updated builder state (the C++ methods
return `*this`, i.e. the same, now-updated, builder). -/
structure BasicStudentBuilder where
  categories : List String
  testToSkipLevels : Bool
deriving DecidableEq, Repr

/-- The builder's default state: `categories` is a default-constructed
(empty) vector and `testToSkipLevels = false` (in-class initializer). -/
def BasicStudentBuilder.init : BasicStudentBuilder :=
  { categories := [], testToSkipLevels := false }

/-- `BasicStudentBuilder::setCategories`: overwrites the accumulated
category list and returns the builder for chaining. -/
def BasicStudentBuilder.setCategories (b : BasicStudentBuilder)
    (categories : List String) : BasicStudentBuilder :=
  { b with categories := categories }

/-- `BasicStudentBuilder::setTestToSkipLevels`: overwrites the accumulated
flag and returns the builder for chaining. -/
def BasicStudentBuilder.setTestToSkipLevels (b : BasicStudentBuilder)
    (testToSkipLevels : Bool) : BasicStudentBuilder :=
  { b with testToSkipLevels := testToSkipLevels }

/-- `BasicStudentBuilder::build`: constructs a fresh `BasicStudent` from the
currently accumulated state (no reset of the builder). -/
def BasicStudentBuilder.build (b : BasicStudentBuilder) : Student :=
  .basic b.categories b.testToSkipLevels

/-- `University`: the singleton registry's state, a vector of students. -/
structure University where
  students : List Student
deriving DecidableEq, Repr

/-- The registry's state before any `addStudent` call: the member vector is
default-constructed, hence empty. -/
def University.empty : University := { students := [] }

/-- `University::addStudent`: `students.push_back(student)`, modelled as
appending to the end of the list. -/
def University.addStudent (u : University) (student : Student) : University :=
  { students := u.students ++ [student] }

/-- `University::getStudents`: returns the vector by value, i.e. a copy of
the current collection. -/
def University.getStudents (u : University) : List Student :=
  u.students

/-- Running a sequence of `addStudent` calls in order. -/
def University.addStudents (u : University) (ss : List Student) : University :=
  ss.foldl University.addStudent u

/-! Helper lemmas shared by several claims. -/

/-- Cloning any student yields the bare `BasicStudent` carrying the chain's
observable attributes. -/
lemma Student.clone_eq_basic (s : Student) :
    s.clone = .basic s.getCategories s.hasTestToSkipLevels := by
  induction s with
  | basic categories testToSkipLevels => rfl
  | decorator baseStudent ih =>
      simpa [Student.clone, Student.getCategories, Student.hasTestToSkipLevels]
        using ih
  | tutoring baseStudent ih =>
      simpa [Student.clone, Student.getCategories, Student.hasTestToSkipLevels]
        using ih

/-- The innermost object of any chain is the bare `BasicStudent` carrying
the chain's observable attributes. -/
lemma Student.innermost_eq_basic (s : Student) :
    s.innermost = .basic s.getCategories s.hasTestToSkipLevels := by
  induction s with
  | basic categories testToSkipLevels => rfl
  | decorator baseStudent ih =>
      simpa [Student.innermost, Student.getCategories,
        Student.hasTestToSkipLevels] using ih
  | tutoring baseStudent ih =>
      simpa [Student.innermost, Student.getCategories,
        Student.hasTestToSkipLevels] using ih

/-- A batch of `addStudent` calls appends the batch, in order, to the
registry's vector. -/
lemma University.addStudents_students (ss : List Student) (u : University) :
    (u.addStudents ss).students = u.students ++ ss := by
  induction ss generalizing u with
  | nil => simp [University.addStudents]
  | cons s ss ih =>
      simp [University.addStudents, List.foldl_cons] at ih ⊢
      simp [ih, University.addStudent]

/-! Claim theorems. -/

/-- C1: for every `Student` wrapped by a decorator (`StudentDecorator` or
`TutoringSupportDecorator`), `clone()` on the decorator returns the wrapped
student's `clone()`, and that result is an undecorated `BasicStudent`
carrying the wrapped object's attribute values. -/
theorem C1_decorator_clone_delegates (s : Student) :
    (Student.decorator s).clone = s.clone ∧
    (Student.tutoring s).clone = s.clone ∧
    s.clone = Student.basic s.getCategories s.hasTestToSkipLevels ∧
    (Student.decorator s).clone.isDecorated = false ∧
    (Student.tutoring s).clone.isDecorated = false := by
  refine ⟨rfl, rfl, Student.clone_eq_basic s, ?_, ?_⟩ <;>
    simp [Student.clone, Student.clone_eq_basic s, Student.isDecorated]

/-- C2: for every wrapped student and every course name (including the
empty string), `TutoringSupportDecorator(s).canTakeCourse(course)` returns
`true`, regardless of the wrapped student's own answer. -/
theorem C2_tutoring_canTakeCourse_always_true (s : Student) (course : String) :
    (Student.tutoring s).canTakeCourse course = true := rfl

/-- C3: the operations `TutoringSupportDecorator` does not override pass
through unchanged: `getCategories` and `hasTestToSkipLevels` on the
decorator equal the wrapped student's results. -/
theorem C3_tutoring_passthrough (s : Student) :
    (Student.tutoring s).getCategories = s.getCategories ∧
    (Student.tutoring s).hasTestToSkipLevels = s.hasTestToSkipLevels :=
  ⟨rfl, rfl⟩

/-- C4: the factory round-trip — for every category sequence (empty,
duplicated or otherwise) and flag, `createStudent(C, F)` satisfies
`getCategories() = C` and `hasTestToSkipLevels() = F`. -/
theorem C4_factory_roundtrip (categories : List String)
    (testToSkipLevels : Bool) :
    (BasicStudentFactory.createStudent categories
        testToSkipLevels).getCategories = categories ∧
    (BasicStudentFactory.createStudent categories
        testToSkipLevels).hasTestToSkipLevels = testToSkipLevels :=
  ⟨rfl, rfl⟩

/-- C5: snapshot semantics of `getStudents()` — the snapshot equals the
collection at the time it was taken, and any later sequence of `addStudent`
calls only appends to the registry's new state: the earlier snapshot
reappears unchanged (same length, same elements) as the prefix, so later
additions never retroactively affect it. -/
theorem C5_getStudents_snapshot (u : University) (later : List Student) :
    u.getStudents = u.students ∧
    (u.addStudents later).students = u.getStudents ++ later ∧
    (u.addStudents later).students.take u.getStudents.length =
      u.getStudents := by
  refine ⟨rfl, University.addStudents_students later u, ?_⟩
  simp [University.addStudents_students later u, University.getStudents]

/-- C6: starting from an empty registry, after a sequence of `addStudent`
calls with pairwise distinct students, `getStudents()` has length exactly
the number of calls and lists the students in insertion order, with no
deduplication and no removal. -/
theorem C6_registry_monotone (ss : List Student) (h : ss.Nodup) :
    (University.empty.addStudents ss).getStudents.length = ss.length ∧
    (University.empty.addStudents ss).getStudents = ss := by
  have hs : (University.empty.addStudents ss).getStudents = ss := by
    simp [University.getStudents, University.addStudents_students,
      University.empty]
  exact ⟨by simp [hs], hs⟩

/-- Witness for C6 at a concrete two-element distinct input. -/
theorem C6_registry_monotone_witness :
    (University.empty.addStudents
        [Student.basic ["Math"] true,
         Student.basic ["Physics"] false]).getStudents.length = 2 ∧
    (University.empty.addStudents
        [Student.basic ["Math"] true,
         Student.basic ["Physics"] false]).getStudents =
      [Student.basic ["Math"] true, Student.basic ["Physics"] false] := by
  have h := C6_registry_monotone
    [Student.basic ["Math"] true, Student.basic ["Physics"] false]
    (by decide)
  exact h

/-- C7: a builder with no setter calls builds a student with empty
categories and flag `false`; and chaining `setCategories(["Math"])`,
`build()`, then `setCategories(["Physics"])`, `build()` on the same builder
yields two students with categories `["Math"]` and `["Physics"]`, the first
result unaffected by the second call (no reset between builds). -/
theorem C7_builder_reuse :
    BasicStudentBuilder.init.build = Student.basic [] false ∧
    ∀ b : BasicStudentBuilder,
      (b.setCategories ["Math"]).build.getCategories = ["Math"] ∧
      ((b.setCategories ["Math"]).setCategories ["Physics"]).build.getCategories
        = ["Physics"] ∧
      (b.setCategories ["Math"]).build.getCategories = ["Math"] := by
  exact ⟨rfl, fun b => ⟨rfl, rfl, rfl⟩⟩

/-- C8: for every `BasicStudent`, `clone()` returns a fresh copy with
identical attribute values: the copy is itself a `BasicStudent` value equal
attribute-by-attribute to the original, built by the copy constructor into
new storage, so no mutable backing store is shared. -/
theorem C8_basic_clone_identical (categories : List String)
    (testToSkipLevels : Bool) :
    (Student.basic categories testToSkipLevels).clone =
      Student.basic categories testToSkipLevels ∧
    (Student.basic categories testToSkipLevels).clone.getCategories =
      categories ∧
    (Student.basic categories testToSkipLevels).clone.hasTestToSkipLevels =
      testToSkipLevels :=
  ⟨rfl, rfl, rfl⟩

/-- C9: for a delegation chain of decorators of any depth over an innermost
`BasicStudent`, `clone()` on the outermost wrapper returns the clone of the
innermost `BasicStudent`: every decoration layer is stripped. -/
theorem C9_deep_clone_strips_all_layers (s : Student) :
    s.clone = s.innermost.clone ∧
    s.clone = s.innermost ∧
    s.clone.isDecorated = false := by
  have h1 := Student.clone_eq_basic s
  have h2 := Student.innermost_eq_basic s
  refine ⟨?_, ?_, ?_⟩
  · rw [h1, h2]; rfl
  · rw [h1, h2]
  · rw [h1]; rfl

/-- C10: two-run noninterference of the course argument — for every
constructible student and any two course names, `canTakeCourse` returns the
same result, so the course name never influences the outcome. -/
theorem C10_canTakeCourse_course_independent (s : Student)
    (c1 c2 : String) :
    s.canTakeCourse c1 = s.canTakeCourse c2 := by
  induction s with
  | basic categories testToSkipLevels => rfl
  | decorator baseStudent ih =>
      simpa [Student.canTakeCourse] using ih
  | tutoring baseStudent ih => rfl
